import Mathlib

/-!
Verification of `src/backend/cdb/identity.c`: process identity management
for a distributed database. The file embeds the role resolver
(`SetSegmentRole`), the capability table (`SetupSegmentFunction`), and the
ProcessIdentity text codec (`SerializeProcessIdentity` /
`DeserializeProcessIdentity` / `SetupProcessIdentity`) as executable Lean
functions, and proves or refutes the specified properties.

Modelling conventions:
- C strings are `List Char` (the NUL terminator is modelled by the end of
  the list: reading `*p` at the terminator corresponds to matching `[]`).
- C `int` fields are unbounded `Int` (all claimed values fit in `int`,
  and `%d` / `strtol` round-trip exactly within that range).
- `elog(FATAL, ...)` in `SetSegmentRole` is modelled as `none`.
- `Assert(false)` in `SetupSegmentFunction` is modelled as a boolean flag
  in the result: `false` means the assertion branch was hit.
- The process-wide singleton `SegmentId` is modelled by explicit state
  passing of a `SegmentIdentity` value.
-/

/-- The `ProcessIdentity` struct (fields as used by `identity.c`). -/
structure ProcessIdentity where
  init : Bool
  slice_id : Int
  id_in_slice : Int
  gang_member_num : Int
  command_count : Int
  is_writer : Bool
deriving DecidableEq

/-- The `SegmentRole` enumeration from `identity.c`. -/
inductive SegmentRole where
  | SEGMENT_ROLE_INVALID
  | SEGMENT_ROLE_INITDB
  | SEGMENT_ROLE_MASTER
  | SEGMENT_ROLE_STANDBY
  | SEGMENT_ROLE_SEGMENT
  | SEGMENT_ROLE_GTM
  | SEGMENT_ROLE_CATALOGSERVICE
  | SEGMENT_ROLE_STANDALONE
deriving DecidableEq

export SegmentRole (SEGMENT_ROLE_INVALID SEGMENT_ROLE_INITDB SEGMENT_ROLE_MASTER
  SEGMENT_ROLE_STANDBY SEGMENT_ROLE_SEGMENT SEGMENT_ROLE_GTM
  SEGMENT_ROLE_CATALOGSERVICE SEGMENT_ROLE_STANDALONE)

/-- The `SegmentFunctionList` capability flags (fields as used by
`SetupSegmentFunction`). -/
structure SegmentFunctionList where
  module_motion : Bool
  module_log_sync : Bool
  login_as_default : Bool
deriving DecidableEq

/-- The `SegmentIdentity` struct (fields as used by `identity.c`). -/
structure SegmentIdentity where
  role : SegmentRole
  name : String
  id : Int
  master_address_set : Bool
  master_host : String
  master_port : Int
  function : SegmentFunctionList
  pid : ProcessIdentity
deriving DecidableEq

/-- C `isspace` in the C locale: space or one of `\t \n \v \f \r`
(codepoints 9-13 and 32). Used by `strtol` to skip leading whitespace. -/
def isSpace (c : Char) : Bool := c.toNat = 32 || (9 ≤ c.toNat && c.toNat ≤ 13)

/-- ASCII decimal digit test, `'0' ≤ c ≤ '9'` (codepoints 48-57). -/
def isDigit (c : Char) : Bool := 48 ≤ c.toNat && c.toNat ≤ 57

/-- The ASCII character for a single decimal digit. -/
def digitChar (d : Nat) : Char := Char.ofNat (48 + d)

/-- Whether a character list begins with a decimal digit. -/
def headIsDigit : List Char → Bool
  | [] => false
  | c :: _ => isDigit c

/-- Accumulator loop for rendering a natural number in decimal,
most-significant digit first (the digit behaviour of `printf %d`). The
first argument is fuel, always called with more fuel than the number of
digits, so the `0` case is never reached from `natToDec`. -/
def natToDecAux : Nat → Nat → List Char → List Char
  | 0, _, acc => acc
  | fuel + 1, n, acc =>
    if n < 10 then digitChar n :: acc
    else natToDecAux fuel (n / 10) (digitChar (n % 10) :: acc)

/-- Decimal rendering of a natural number. -/
def natToDec (n : Nat) : List Char := natToDecAux (n + 1) n []

/-- Signed decimal rendering, exactly as `printf("%d", v)` renders a C
int: a `-` sign for negative values, plain digits otherwise. -/
def intToDec (n : Int) : List Char :=
  if n < 0 then '-' :: natToDec n.natAbs else natToDec n.toNat

/-- Consume a maximal run of decimal digits, folding them onto an
accumulator (the digit-consumption loop inside `strtol`). -/
def digitsRun (acc : Nat) : List Char → Nat × List Char
  | [] => (acc, [])
  | c :: cs => if isDigit c then digitsRun (acc * 10 + (c.toNat - 48)) cs else (acc, c :: cs)

/-- Model of C `strtol(p, &end, 10)`: skip leading whitespace, accept one
optional `+` or `-`, then a nonempty digit run. `none` models the
no-conversion case (`end == p`); `some (v, rest)` returns the parsed value
and the unconsumed tail starting at `end`. -/
def strtol10 (p : List Char) : Option (Int × List Char) :=
  match p.dropWhile isSpace with
  | [] => none
  | c :: cs =>
    if c = '-' then
      if headIsDigit cs then
        let r := digitsRun 0 cs
        some (-(r.1 : Int), r.2)
      else none
    else if c = '+' then
      if headIsDigit cs then
        let r := digitsRun 0 cs
        some ((r.1 : Int), r.2)
      else none
    else if isDigit c then
      let r := digitsRun 0 (c :: cs)
      some ((r.1 : Int), r.2)
    else none

/-- The `consume_token` macro of `DeserializeProcessIdentity`:
`strncmp(p, token, strlen(token))` succeeds iff `token` is a prefix of the
remaining input, and on success `p` advances past it. -/
def consume_token (token p : List Char) : Option (List Char) :=
  match token, p with
  | [], rest => some rest
  | _ :: _, [] => none
  | t :: ts, c :: cs => if c = t then consume_token ts cs else none

/-- The `consume_int` macro: `strtol` the field, fail on no conversion,
then require and skip a `_` separator. -/
def consume_int (p : List Char) : Option (Int × List Char) :=
  match strtol10 p with
  | none => none
  | some (v, rest) =>
    match rest with
    | '_' :: rest2 => some (v, rest2)
    | _ => none

/-- The `consume_bool` macro: a single `t` or `f` followed by a required
`_` separator. -/
def consume_bool (p : List Char) : Option (Bool × List Char) :=
  match p with
  | 't' :: '_' :: rest => some (true, rest)
  | 'f' :: '_' :: rest => some (false, rest)
  | _ => none

def PI_SER_START_TOKEN : List Char := "ProcessIdentity_Begin_".toList
def PI_SER_SLICE_TOKEN : List Char := "slice_".toList
def PI_SER_IDX_TOKEN : List Char := "idx_".toList
def PI_SER_GANG_TOKEN : List Char := "gang_".toList
def PI_SER_WRITER_TOKEN : List Char := "writer_".toList
def PI_SER_CMD_TOKEN : List Char := "cmd_".toList
def PI_SER_END_TOKEN : List Char := "End_ProcessIdentity".toList

/-- The serialized text produced by `SerializeProcessIdentity` for an
initialized record: the fixed-order grammar with `%d`-rendered integers
and `t`/`f` for the writer flag, each field followed by `_`. -/
def serializedBody (id : ProcessIdentity) : List Char :=
  PI_SER_START_TOKEN ++
  (PI_SER_SLICE_TOKEN ++ (intToDec id.slice_id ++ ('_' ::
  (PI_SER_IDX_TOKEN ++ (intToDec id.id_in_slice ++ ('_' ::
  (PI_SER_GANG_TOKEN ++ (intToDec id.gang_member_num ++ ('_' ::
  (PI_SER_CMD_TOKEN ++ (intToDec id.command_count ++ ('_' ::
  (PI_SER_WRITER_TOKEN ++ ((if id.is_writer then 't' else 'f') :: '_' ::
  PI_SER_END_TOKEN))))))))))))))

/-- `SerializeProcessIdentity`: returns NULL (`none`) for an
uninitialized record, otherwise the serialized text. -/
def SerializeProcessIdentity (id : ProcessIdentity) : Option (List Char) :=
  if id.init = false then none
  else some (serializedBody id)

/-- `DeserializeProcessIdentity`: parses the fixed token sequence,
writing each parsed field into `id` as it goes (the C macros store into
`id->...` immediately), with `id->init` cleared at entry and left `false`
by this function even on success; the boolean result reports success.
On any failure the function jumps to `error` and returns `false`, leaving
whatever fields were already stored. -/
def DeserializeProcessIdentity (id0 : ProcessIdentity) (str : List Char) :
    ProcessIdentity × Bool :=
  let id := { id0 with init := false }
  match consume_token PI_SER_START_TOKEN str with
  | none => (id, false)
  | some p =>
  match consume_token PI_SER_SLICE_TOKEN p with
  | none => (id, false)
  | some p =>
  match consume_int p with
  | none => (id, false)
  | some (v, p) =>
  let id := { id with slice_id := v }
  match consume_token PI_SER_IDX_TOKEN p with
  | none => (id, false)
  | some p =>
  match consume_int p with
  | none => (id, false)
  | some (v, p) =>
  let id := { id with id_in_slice := v }
  match consume_token PI_SER_GANG_TOKEN p with
  | none => (id, false)
  | some p =>
  match consume_int p with
  | none => (id, false)
  | some (v, p) =>
  let id := { id with gang_member_num := v }
  match consume_token PI_SER_CMD_TOKEN p with
  | none => (id, false)
  | some p =>
  match consume_int p with
  | none => (id, false)
  | some (v, p) =>
  let id := { id with command_count := v }
  match consume_token PI_SER_WRITER_TOKEN p with
  | none => (id, false)
  | some p =>
  match consume_bool p with
  | none => (id, false)
  | some (w, p) =>
  let id := { id with is_writer := w }
  match consume_token PI_SER_END_TOKEN p with
  | none => (id, false)
  | some _ => (id, true)

/-- `SetupProcessIdentity`: runs the deserializer on the process-wide
`SegmentId.pid`, then unconditionally sets `SegmentId.pid.init = true`
(the source does this regardless of the deserializer's result), and
returns the deserializer's boolean. -/
def SetupProcessIdentity (seg : SegmentIdentity) (str : List Char) :
    SegmentIdentity × Bool :=
  let r := DeserializeProcessIdentity seg.pid str
  ({ seg with pid := { r.1 with init := true } }, r.2)

/-- `SetSegmentRole`: bootstrap mode forces `SEGMENT_ROLE_INITDB`;
otherwise the name is matched case-sensitively against the five role
strings; any other name reaches `elog(FATAL, ...)`, modelled as `none`. -/
def SetSegmentRole (name : String) (bootstrap : Bool) : Option SegmentRole :=
  if bootstrap then some SEGMENT_ROLE_INITDB
  else if name = "segment" then some SEGMENT_ROLE_SEGMENT
  else if name = "master" then some SEGMENT_ROLE_MASTER
  else if name = "standby" then some SEGMENT_ROLE_STANDBY
  else if name = "gtm" then some SEGMENT_ROLE_GTM
  else if name = "catalogservice" then some SEGMENT_ROLE_CATALOGSERVICE
  else none

/-- `SetupSegmentFunction`: zeroes the capability flags (`MemSet`), then
switches on the role. The boolean in the result is `false` exactly when
the `default: Assert(false)` branch is taken. -/
def SetupSegmentFunction (role : SegmentRole) : SegmentFunctionList × Bool :=
  let f : SegmentFunctionList := ⟨false, false, false⟩
  match role with
  | SEGMENT_ROLE_INITDB => (f, true)
  | SEGMENT_ROLE_MASTER => ({ f with module_motion := true }, true)
  | SEGMENT_ROLE_STANDBY => ({ f with module_log_sync := true }, true)
  | SEGMENT_ROLE_SEGMENT => ({ f with login_as_default := true, module_motion := true }, true)
  | _ => (f, false)

/-- `SetSegmentIdentity`: resolve the role (propagating the fatal path as
`none`), derive the capability flags, and clear `pid.init`
(`UnsetProcessIdentity`). The boolean reports that no assertion fired. -/
def SetSegmentIdentity (seg : SegmentIdentity) (name : String) (bootstrap : Bool) :
    Option (SegmentIdentity × Bool) :=
  match SetSegmentRole name bootstrap with
  | none => none
  | some role =>
    let fr := SetupSegmentFunction role
    some ({ seg with
              role := role
              function := fr.1
              pid := { seg.pid with init := false } }, fr.2)

/-- `IsOnMaster`: direct comparison of the stored role with
`SEGMENT_ROLE_MASTER`. -/
def IsOnMaster (seg : SegmentIdentity) : Bool :=
  seg.role = SEGMENT_ROLE_MASTER

/-- `AmIMaster`: direct comparison of the stored role with
`SEGMENT_ROLE_MASTER`. -/
def AmIMaster (seg : SegmentIdentity) : Bool :=
  seg.role = SEGMENT_ROLE_MASTER

/-- A concrete uninitialized `ProcessIdentity`, used as the pre-state in
concrete evaluations. -/
def pid0 : ProcessIdentity := ⟨false, 0, 0, 0, 0, false⟩

/-- A concrete `SegmentIdentity` pre-state for concrete evaluations. -/
def seg0 : SegmentIdentity :=
  ⟨SEGMENT_ROLE_INVALID, "", 0, false, "", 0, ⟨false, false, false⟩, pid0⟩

/-! Helper lemmas about the decimal renderer and the parser. -/

lemma digitsRun_stop (a : Nat) (rest : List Char) (h : headIsDigit rest = false) :
    digitsRun a rest = (a, rest) := by
  cases rest with
  | nil => rfl
  | cons c cs =>
    simp only [headIsDigit] at h
    simp [digitsRun, h]

lemma natToDecAux_append (fuel : Nat) : ∀ (n : Nat) (acc acc2 : List Char),
    natToDecAux fuel n (acc ++ acc2) = natToDecAux fuel n acc ++ acc2 := by
  induction fuel with
  | zero => intro n acc acc2; rfl
  | succ f ih =>
    intro n acc acc2
    by_cases h : n < 10
    · simp [natToDecAux, h]
    · simp only [natToDecAux, if_neg h, ← List.cons_append, ih]

lemma natToDecAux_shape (fuel : Nat) : ∀ (n : Nat) (acc : List Char), n < fuel →
    ∃ d tail, d < 10 ∧ natToDecAux fuel n acc = digitChar d :: tail := by
  induction fuel with
  | zero => intro n acc h; omega
  | succ f ih =>
    intro n acc h
    by_cases h10 : n < 10
    · exact ⟨n, acc, h10, by simp [natToDecAux, h10]⟩
    · have hlt : n / 10 < f := by omega
      obtain ⟨d, tail, hd, htail⟩ := ih (n / 10) (digitChar (n % 10) :: acc) hlt
      exact ⟨d, tail, hd, by simp [natToDecAux, h10, htail]⟩

lemma natToDec_shape (n : Nat) : ∃ d tail, d < 10 ∧ natToDec n = digitChar d :: tail :=
  natToDecAux_shape (n + 1) n [] (by omega)

lemma toNat_digitChar (d : Nat) (h : d < 10) : (digitChar d).toNat = 48 + d := by
  interval_cases d <;> decide

lemma isDigit_digitChar (d : Nat) (h : d < 10) : isDigit (digitChar d) = true := by
  interval_cases d <;> decide

lemma isSpace_digitChar (d : Nat) (h : d < 10) : isSpace (digitChar d) = false := by
  interval_cases d <;> decide

lemma digitChar_ne_minus (d : Nat) (h : d < 10) : ¬(digitChar d = '-') := by
  interval_cases d <;> decide

lemma digitChar_ne_plus (d : Nat) (h : d < 10) : ¬(digitChar d = '+') := by
  interval_cases d <;> decide

lemma digitsRun_natToDecAux (fuel : Nat) : ∀ (n a : Nat) (tail : List Char), n < fuel →
    ∃ k, digitsRun a (natToDecAux fuel n tail) = digitsRun (a * 10 ^ k + n) tail := by
  induction fuel with
  | zero => intro n a tail h; omega
  | succ f ih =>
    intro n a tail h
    by_cases h10 : n < 10
    · refine ⟨1, ?_⟩
      have htn : (digitChar n).toNat - 48 = n := by rw [toNat_digitChar n h10]; omega
      simp [natToDecAux, h10, digitsRun, isDigit_digitChar n h10, htn]
    · have hlt : n / 10 < f := by omega
      obtain ⟨k, hk⟩ := ih (n / 10) a (digitChar (n % 10) :: tail) hlt
      refine ⟨k + 1, ?_⟩
      rw [natToDecAux]
      rw [if_neg h10, hk]
      have h9 : n % 10 < 10 := by omega
      have htn : (digitChar (n % 10)).toNat - 48 = n % 10 := by
        rw [toNat_digitChar _ h9]; omega
      simp only [digitsRun, isDigit_digitChar _ h9, if_true, htn]
      congr 1
      rw [pow_succ, ← Nat.mul_assoc]
      generalize a * 10 ^ k = A
      omega

lemma digitsRun_natToDec (n : Nat) (rest : List Char) (h : headIsDigit rest = false) :
    digitsRun 0 (natToDec n ++ rest) = (n, rest) := by
  have h1 : natToDec n ++ rest = natToDecAux (n + 1) n rest := by
    rw [natToDec, ← natToDecAux_append]
    rfl
  rw [h1]
  obtain ⟨k, hk⟩ := digitsRun_natToDecAux (n + 1) n 0 rest (by omega)
  rw [hk]
  simpa using digitsRun_stop n rest h

lemma strtol10_natToDec (n : Nat) (rest : List Char) (h : headIsDigit rest = false) :
    strtol10 (natToDec n ++ rest) = some ((n : Int), rest) := by
  obtain ⟨d, tail, hd, hshape⟩ := natToDec_shape n
  have hrw : natToDec n ++ rest = digitChar d :: (tail ++ rest) := by
    rw [hshape]; rfl
  rw [hrw]
  simp only [strtol10, List.dropWhile_cons, isSpace_digitChar d hd, Bool.false_eq_true,
    if_false, if_neg (digitChar_ne_minus d hd), if_neg (digitChar_ne_plus d hd),
    isDigit_digitChar d hd, if_true]
  rw [← hrw, digitsRun_natToDec n rest h]

lemma strtol10_intToDec (n : Int) (rest : List Char) (h : headIsDigit rest = false) :
    strtol10 (intToDec n ++ rest) = some (n, rest) := by
  by_cases hn : n < 0
  · obtain ⟨d, tail, hd, hshape⟩ := natToDec_shape n.natAbs
    have hrw : intToDec n ++ rest = '-' :: (natToDec n.natAbs ++ rest) := by
      rw [intToDec, if_pos hn]; rfl
    have hsp : isSpace '-' = false := by decide
    have hhd : headIsDigit (natToDec n.natAbs ++ rest) = true := by
      rw [hshape]
      simpa [headIsDigit] using isDigit_digitChar d hd
    rw [hrw]
    simp only [strtol10, List.dropWhile_cons, hsp, Bool.false_eq_true, if_false,
      if_pos rfl, hhd, if_true, digitsRun_natToDec n.natAbs rest h]
    have hneg : -((n.natAbs : Int)) = n := by omega
    rw [hneg]
  · have hrw : intToDec n ++ rest = natToDec n.toNat ++ rest := by
      rw [intToDec, if_neg hn]
    rw [hrw, strtol10_natToDec _ _ h]
    have : ((n.toNat : Int)) = n := by omega
    rw [this]

lemma consume_int_intToDec (n : Int) (rest : List Char) :
    consume_int (intToDec n ++ '_' :: rest) = some (n, rest) := by
  have h : headIsDigit ('_' :: rest) = false := by
    simp [headIsDigit, isDigit]
  rw [consume_int, strtol10_intToDec n ('_' :: rest) h]
  rfl

lemma consume_token_self (t : List Char) : ∀ rest, consume_token t (t ++ rest) = some rest := by
  induction t with
  | nil => intro rest; rfl
  | cons c cs ih => intro rest; simp [consume_token, ih]

lemma consume_bool_tf (w : Bool) (rest : List Char) :
    consume_bool ((if w then 't' else 'f') :: '_' :: rest) = some (w, rest) := by
  cases w <;> rfl

/-- Parsing the serialized text of `x`, followed by any suffix, succeeds
and stores exactly the five serialized field values, independent of the
pre-state and of the suffix (the end token is matched only as a prefix). -/
lemma deserialize_serializedBody (x id0 : ProcessIdentity) (suffix : List Char) :
    DeserializeProcessIdentity id0 (serializedBody x ++ suffix) =
      (⟨false, x.slice_id, x.id_in_slice, x.gang_member_num, x.command_count,
        x.is_writer⟩, true) := by
  simp only [serializedBody, List.append_assoc, List.cons_append,
    DeserializeProcessIdentity, consume_token_self, consume_int_intToDec, consume_bool_tf]

/-! Claim theorems. -/

/-- Claim C1: for every `ProcessIdentity` x with `initialized = true` (all
integer values of the four int fields, both writer values), decoding the
string produced by encode(x) succeeds and reproduces exactly the same five
field values, with the resulting record marked `initialized = true`:
`decode(encode(x)) = x`. -/
theorem C1_serialize_deserialize_roundtrip (x : ProcessIdentity) (seg : SegmentIdentity)
    (hx : x.init = true) :
    ∃ s, SerializeProcessIdentity x = some s ∧
      (SetupProcessIdentity seg s).2 = true ∧
      (SetupProcessIdentity seg s).1.pid = x := by
  have hdes := deserialize_serializedBody x seg.pid []
  rw [List.append_nil] at hdes
  refine ⟨serializedBody x, ?_, ?_, ?_⟩
  · simp [SerializeProcessIdentity, hx]
  · simp [SetupProcessIdentity, hdes]
  · simp only [SetupProcessIdentity, hdes]
    cases x
    simp_all

/-- Witness for C1 at a concrete initialized record. -/
theorem C1_serialize_deserialize_roundtrip_witness :
    (⟨true, 2, 0, 3, 7, true⟩ : ProcessIdentity).init = true ∧
    ∃ s, SerializeProcessIdentity ⟨true, 2, 0, 3, 7, true⟩ = some s ∧
      (SetupProcessIdentity seg0 s).2 = true ∧
      (SetupProcessIdentity seg0 s).1.pid = ⟨true, 2, 0, 3, 7, true⟩ :=
  ⟨rfl, C1_serialize_deserialize_roundtrip ⟨true, 2, 0, 3, 7, true⟩ seg0 rfl⟩

/-- Claim C2 (code-bug evidence): on a failing decode the public operation
`SetupProcessIdentity` returns `false` but nevertheless marks the target
`pid.init = true`, and partially-parsed fields are left stored: the claim
that the target is left `initialized = false` with no partial fields valid
is violated by the code. -/
theorem C2_setup_failure_marks_initialized :
    (SetupProcessIdentity seg0 "".toList).2 = false ∧
    (SetupProcessIdentity seg0 "".toList).1.pid.init = true ∧
    (SetupProcessIdentity seg0 "ProcessIdentity_Begin_slice_5_idx_6_oops".toList).2 = false ∧
    (SetupProcessIdentity seg0 "ProcessIdentity_Begin_slice_5_idx_6_oops".toList).1.pid.init
      = true ∧
    (SetupProcessIdentity seg0 "ProcessIdentity_Begin_slice_5_idx_6_oops".toList).1.pid.slice_id
      = 5 := by
  decide

/-- Claim C3 (code-bug evidence): the role resolver can output
`SEGMENT_ROLE_GTM` and `SEGMENT_ROLE_CATALOGSERVICE`, yet
`SetupSegmentFunction` sends both to the `default: Assert(false)` branch
(second component `false`), contradicting the claim that the assertion
branch is reachable only for roles outside the resolver's output set. The
capability flag values themselves match the table for all six roles (all
false for GTM and CatalogService, via the `MemSet` zeroing). -/
theorem C3_capability_assertion_reachable :
    SetSegmentRole "gtm" false = some SEGMENT_ROLE_GTM ∧
    SetSegmentRole "catalogservice" false = some SEGMENT_ROLE_CATALOGSERVICE ∧
    SetupSegmentFunction SEGMENT_ROLE_GTM = (⟨false, false, false⟩, false) ∧
    SetupSegmentFunction SEGMENT_ROLE_CATALOGSERVICE = (⟨false, false, false⟩, false) ∧
    SetupSegmentFunction SEGMENT_ROLE_INITDB = (⟨false, false, false⟩, true) ∧
    SetupSegmentFunction SEGMENT_ROLE_MASTER = (⟨true, false, false⟩, true) ∧
    SetupSegmentFunction SEGMENT_ROLE_STANDBY = (⟨false, true, false⟩, true) ∧
    SetupSegmentFunction SEGMENT_ROLE_SEGMENT = (⟨true, false, true⟩, true) ∧
    (SetSegmentIdentity seg0 "gtm" false).map Prod.snd = some false ∧
    (SetSegmentIdentity seg0 "master" false).map Prod.snd = some true := by
  decide

/-- Claim C4: role resolution: the bootstrap flag forces Bootstrap
(`SEGMENT_ROLE_INITDB`) regardless of the name; otherwise the name is
matched exactly and case-sensitively with the five listed strings
succeeding, and every other string takes the fatal path (`none`). -/
theorem C4_set_segment_role_resolution :
    (∀ name : String, SetSegmentRole name true = some SEGMENT_ROLE_INITDB) ∧
    SetSegmentRole "master" false = some SEGMENT_ROLE_MASTER ∧
    SetSegmentRole "segment" false = some SEGMENT_ROLE_SEGMENT ∧
    SetSegmentRole "standby" false = some SEGMENT_ROLE_STANDBY ∧
    SetSegmentRole "gtm" false = some SEGMENT_ROLE_GTM ∧
    SetSegmentRole "catalogservice" false = some SEGMENT_ROLE_CATALOGSERVICE ∧
    ∀ name : String, name ≠ "master" → name ≠ "segment" → name ≠ "standby" →
      name ≠ "gtm" → name ≠ "catalogservice" → SetSegmentRole name false = none := by
  refine ⟨fun name => rfl, by decide, by decide, by decide, by decide, by decide, ?_⟩
  intro name h1 h2 h3 h4 h5
  simp [SetSegmentRole, h1, h2, h3, h4, h5]

/-- Witness for C4 on a concrete unrecognized role name. -/
theorem C4_set_segment_role_resolution_witness :
    ("replica" : String) ≠ "master" ∧ SetSegmentRole "replica" false = none :=
  ⟨by decide, C4_set_segment_role_resolution.2.2.2.2.2.2 "replica" (by decide) (by decide)
    (by decide) (by decide) (by decide)⟩

/-- Claim C5: the deserializer is a total function returning success or
failure on every input, and returns failure on the empty string, on a
string missing the end literal, on a non-digit integer field, and on a
writer field other than `t`/`f`. -/
theorem C5_deserialize_total_and_fails_on_malformed :
    (∀ (id0 : ProcessIdentity) (s : List Char),
      (DeserializeProcessIdentity id0 s).2 = true ∨
        (DeserializeProcessIdentity id0 s).2 = false) ∧
    (DeserializeProcessIdentity pid0 "".toList).2 = false ∧
    (DeserializeProcessIdentity pid0
      "ProcessIdentity_Begin_slice_2_idx_0_gang_3_cmd_7_writer_t_".toList).2 = false ∧
    (DeserializeProcessIdentity pid0
      "ProcessIdentity_Begin_slice_x_idx_0_gang_3_cmd_7_writer_t_End_ProcessIdentity".toList).2
      = false ∧
    (DeserializeProcessIdentity pid0
      "ProcessIdentity_Begin_slice_2_idx_0_gang_3_cmd_7_writer_x_End_ProcessIdentity".toList).2
      = false := by
  refine ⟨fun id0 s => ?_, by decide, by decide, by decide, by decide⟩
  cases h : (DeserializeProcessIdentity id0 s).2
  · exact Or.inr rfl
  · exact Or.inl rfl

/-- Claim C6: the concrete record (2, 0, 3, 7, writer) serializes to
exactly the expected token string, and decoding that string reproduces the
record with `initialized = true`. -/
theorem C6_concrete_roundtrip :
    SerializeProcessIdentity ⟨true, 2, 0, 3, 7, true⟩ =
      some "ProcessIdentity_Begin_slice_2_idx_0_gang_3_cmd_7_writer_t_End_ProcessIdentity".toList ∧
    (SetupProcessIdentity seg0
      "ProcessIdentity_Begin_slice_2_idx_0_gang_3_cmd_7_writer_t_End_ProcessIdentity".toList).2
      = true ∧
    (SetupProcessIdentity seg0
      "ProcessIdentity_Begin_slice_2_idx_0_gang_3_cmd_7_writer_t_End_ProcessIdentity".toList).1.pid
      = ⟨true, 2, 0, 3, 7, true⟩ := by
  decide

/-- Claim C7: encoding any `ProcessIdentity` with `initialized = false`
returns the explicit no-value sentinel (`NULL`, modelled `none`), not an
error or a string. -/
theorem C7_serialize_uninitialized_none (pi : ProcessIdentity) (h : pi.init = false) :
    SerializeProcessIdentity pi = none := by
  simp [SerializeProcessIdentity, h]

/-- Witness for C7 at a concrete uninitialized record. -/
theorem C7_serialize_uninitialized_none_witness :
    pid0.init = false ∧ SerializeProcessIdentity pid0 = none :=
  ⟨rfl, C7_serialize_uninitialized_none pid0 rfl⟩

/-- Claim C8: decode ignores rather than rejects trailing characters after
the end token: for every initialized x and every suffix, decoding
encode(x) ++ suffix succeeds and yields the same five field values. -/
theorem C8_deserialize_ignores_trailing (x : ProcessIdentity) (seg : SegmentIdentity)
    (suffix : List Char) (hx : x.init = true) :
    ∃ s, SerializeProcessIdentity x = some s ∧
      (SetupProcessIdentity seg (s ++ suffix)).2 = true ∧
      (SetupProcessIdentity seg (s ++ suffix)).1.pid = x := by
  have hdes := deserialize_serializedBody x seg.pid suffix
  refine ⟨serializedBody x, ?_, ?_, ?_⟩
  · simp [SerializeProcessIdentity, hx]
  · simp [SetupProcessIdentity, hdes]
  · simp only [SetupProcessIdentity, hdes]
    cases x
    simp_all

/-- Witness for C8 at a concrete record and concrete trailing garbage. -/
theorem C8_deserialize_ignores_trailing_witness :
    (⟨true, 2, 0, 3, 7, true⟩ : ProcessIdentity).init = true ∧
    ∃ s, SerializeProcessIdentity ⟨true, 2, 0, 3, 7, true⟩ = some s ∧
      (SetupProcessIdentity seg0 (s ++ "_extra".toList)).2 = true ∧
      (SetupProcessIdentity seg0 (s ++ "_extra".toList)).1.pid = ⟨true, 2, 0, 3, 7, true⟩ :=
  ⟨rfl, C8_deserialize_ignores_trailing ⟨true, 2, 0, 3, 7, true⟩ seg0 "_extra".toList rfl⟩

/-- Claim C9: integer fields follow `strtol` semantics rather than the
literal grammar: a `+`-prefixed field and a field with leading whitespace
decode successfully to the same record as the canonical digits-only form,
so distinct inputs decode to the same record. -/
theorem C9_strtol_accepts_noncanonical :
    ("ProcessIdentity_Begin_slice_+2_idx_0_gang_3_cmd_7_writer_t_End_ProcessIdentity".toList ≠
      "ProcessIdentity_Begin_slice_2_idx_0_gang_3_cmd_7_writer_t_End_ProcessIdentity".toList) ∧
    DeserializeProcessIdentity pid0
      "ProcessIdentity_Begin_slice_+2_idx_0_gang_3_cmd_7_writer_t_End_ProcessIdentity".toList =
      DeserializeProcessIdentity pid0
        "ProcessIdentity_Begin_slice_2_idx_0_gang_3_cmd_7_writer_t_End_ProcessIdentity".toList ∧
    (DeserializeProcessIdentity pid0
      "ProcessIdentity_Begin_slice_+2_idx_0_gang_3_cmd_7_writer_t_End_ProcessIdentity".toList).2
      = true ∧
    DeserializeProcessIdentity pid0
      "ProcessIdentity_Begin_slice_ 2_idx_0_gang_3_cmd_7_writer_t_End_ProcessIdentity".toList =
      (⟨false, 2, 0, 3, 7, true⟩, true) := by
  decide

/-- Claim C10: the two coordinator predicates are equivalent: `IsOnMaster`
and `AmIMaster` return the same boolean on every state, true exactly when
the stored role is `SEGMENT_ROLE_MASTER`. -/
theorem C10_is_on_master_eq_am_i_master (seg : SegmentIdentity) :
    IsOnMaster seg = AmIMaster seg ∧
    (IsOnMaster seg = true ↔ seg.role = SEGMENT_ROLE_MASTER) ∧
    (AmIMaster seg = true ↔ seg.role = SEGMENT_ROLE_MASTER) := by
  refine ⟨rfl, ?_, ?_⟩ <;> simp [IsOnMaster, AmIMaster]
